import Mathlib

/-
  Verification of the Candor anonymous workplace-issue portal.

  Shallow embedding of:
  - the database schema and row-level policies from
    supabase/migrations/20250803174517_....sql (tables issues, issue_categories,
    departments, issue_updates, anonymous_tokens, profiles; the
    generate_anonymous_token function; the Staff update/insert policies; the
    handle_new_user trigger function),
  - the data-access hook src/hooks/useIssues.ts (fetchIssues, fetchCategories,
    fetchDepartments, createIssue, updateIssue, trackIssueByToken),
  - the page logic that the claims cite: handleTrack in pages/TrackIssue.tsx,
    handleSubmit in pages/ReportIssue.tsx, the Dashboard filter and status
    counts, and the sign-up role enumeration in pages/Auth.tsx.

  Remote round trips are modelled by an explicit transport outcome (Remote);
  a thrown JavaScript error is an Except.error result; toast notifications and
  console logging are recorded as effects.  Timestamps are naturals driven by
  a monotone database clock; uuids are modelled by strings and by the row
  counter nextId.
-/

namespace Candor

/-- Severity enum of the issues table: CHECK (severity IN (low, medium, high, critical)). -/
inductive Severity
  | low
  | medium
  | high
  | critical
deriving DecidableEq, Repr

/-- Status enum of the issues table: CHECK (status IN (open, in_progress, resolved, closed)). -/
inductive Status
  | open_
  | in_progress
  | resolved
  | closed
deriving DecidableEq, Repr

/-- The string stored in the status TEXT column for each status value. -/
def Status.str : Status → String
  | Status.open_ => "open"
  | Status.in_progress => "in_progress"
  | Status.resolved => "resolved"
  | Status.closed => "closed"

/-- The string stored in the severity TEXT column for each severity value. -/
def Severity.str : Severity → String
  | Severity.low => "low"
  | Severity.medium => "medium"
  | Severity.high => "high"
  | Severity.critical => "critical"

/-- Row of issue_categories (id, name, description, color, icon). -/
structure IssueCategory where
  id : String
  name : String
  description : Option String
  color : String
  icon : String
deriving DecidableEq, Repr

/-- Row of departments (id, name, description). -/
structure Department where
  id : String
  name : String
  description : Option String
deriving DecidableEq, Repr

/-- Row of profiles, with the columns handle_new_user fills. -/
structure Profile where
  user_id : String
  email : String
  role : String
  display_name : Option String
  first_name : Option String
  last_name : Option String
  company : Option String
  job_title : Option String
deriving DecidableEq, Repr

/-- Row of issue_updates. -/
structure IssueUpdate where
  id : String
  issue_id : Nat
  update_type : String
  content : String
  old_status : Option String
  new_status : Option String
  created_by : Option String
  is_public : Bool
deriving DecidableEq, Repr

/-- Row of the issues table.  JSONB attachments are modelled as a list and
JSONB metadata as a key-value list; timestamps are naturals. -/
structure IssueRow where
  id : Nat
  title : String
  description : String
  category_id : Option String
  department_id : Option String
  severity : Severity
  status : Status
  anonymous_token : String
  reporter_id : Option String
  assigned_to : Option String
  location : Option String
  attachments : List String
  metadata : List (String × String)
  created_at : Nat
  updated_at : Nat
  resolved_at : Option Nat
deriving DecidableEq, Repr

/-- Row of the anonymous_tokens table (token, issue_id, expires_at). -/
structure AnonymousTokenRow where
  token : String
  issue_id : Nat
  expires_at : Nat
deriving DecidableEq, Repr

/-- Database state: the six tables plus a monotone clock for now() and the
counter supplying fresh primary keys. -/
structure DB where
  issues : List IssueRow
  issue_categories : List IssueCategory
  departments : List Department
  issue_updates : List IssueUpdate
  anonymous_tokens : List AnonymousTokenRow
  profiles : List Profile
  now : Nat
  nextId : Nat
deriving DecidableEq, Repr

/-- Client-side Issue value of the hook: the row joined with its category,
department and assignee profile, as produced by the select with joins. -/
structure ClientIssue where
  row : IssueRow
  category : Option IssueCategory
  department : Option Department
  assigned_user : Option Profile
deriving DecidableEq, Repr

/-- Result of trackIssueByToken: the row joined with category, department and
its visible updates. -/
structure TrackedIssue where
  row : IssueRow
  category : Option IssueCategory
  department : Option Department
  updates : List IssueUpdate
deriving DecidableEq, Repr

/-- A toast notification as raised through the toast helper. -/
structure Toast where
  title : String
  description : Option String
  destructive : Bool
deriving DecidableEq, Repr

/-- Observable effects of one hook operation: console logging, toasts, and
writes to client-local storage. -/
structure Effects where
  logged : Bool
  toasts : List Toast
  stored : List (String × String)
deriving DecidableEq, Repr

/-- Local state held by the useIssues hook. -/
structure HookState where
  issues : List ClientIssue
  categories : List IssueCategory
  departments : List Department
deriving DecidableEq, Repr

/-- Outcome of one transport round trip to the remote store. -/
inductive Remote
  | ok
  | fail (msg : String)
deriving DecidableEq, Repr

/-- What one hook operation produces: the new database, the new hook state,
the recorded effects, and what the caller observes (a returned value or a
thrown error). -/
structure OpOut (α : Type) where
  db : DB
  state : HookState
  effects : Effects
  result : Except String α

/-- True exactly when the caller sees a returned value rather than a thrown
error. -/
def exceptOk {α : Type} : Except String α → Bool
  | Except.ok _ => true
  | Except.error _ => false

def noEffects : Effects := { logged := false, toasts := [], stored := [] }

def loadErrorToast (msg : String) : Toast :=
  { title := "Error loading issues", description := some msg, destructive := true }

def reportErrorToast (msg : String) : Toast :=
  { title := "Error reporting issue", description := some msg, destructive := true }

def updateErrorToast (msg : String) : Toast :=
  { title := "Error updating issue", description := some msg, destructive := true }

/-- The toast of the trackIssueByToken catch block; it is raised for every
error reaching that catch, whatever its origin. -/
def notFoundToast : Toast :=
  { title := "Issue not found",
    description := some "Please check your tracking token and try again.",
    destructive := true }

/-- The last n characters of a string, as slice with a negative index. -/
def sliceLast (s : String) (n : Nat) : String :=
  String.mk ((s.toList.reverse.take n).reverse)

def createdToast (tok : String) : Toast :=
  { title := "Issue reported successfully",
    description := some ("Your anonymous tracking ID is: " ++ sliceLast tok 8),
    destructive := false }

def updatedToast : Toast :=
  { title := "Issue updated successfully", description := none, destructive := false }

def foundToast : Toast :=
  { title := "Issue found",
    description := some "Here is the current status of your report.",
    destructive := false }

def trackErrorToast : Toast :=
  { title := "Error tracking issue",
    description := some "Please try again or contact support if the problem persists.",
    destructive := true }

/-- Error message of a single-row request that matched zero or several rows. -/
def noRowsMsg : String := "JSON object requested, multiple (or no) rows returned"

/-- Error message of an insert violating the unique token constraint. -/
def uniqueMsg : String := "duplicate key value violates unique constraint"

/-- Insert an element into a list sorted descending by a natural key. -/
def insertDescBy {α : Type} (key : α → Nat) (a : α) : List α → List α
  | [] => [a]
  | x :: xs => if key x ≤ key a then a :: x :: xs else x :: insertDescBy key a xs

/-- Sort a list descending by a natural key (the order by created_at
descending of the issues select). -/
def sortDescBy {α : Type} (key : α → Nat) : List α → List α
  | [] => []
  | x :: xs => insertDescBy key x (sortDescBy key xs)

/-- Insert an element into a list sorted ascending by a string key. -/
def insertAscBy {α : Type} (key : α → String) (a : α) : List α → List α
  | [] => [a]
  | x :: xs => if key x < key a then x :: insertAscBy key a xs else a :: x :: xs

/-- Sort ascending by a string key (the order by name of the reference-table
selects). -/
def sortAscBy {α : Type} (key : α → String) : List α → List α
  | [] => []
  | x :: xs => insertAscBy key x (sortAscBy key xs)

/-- Boolean check that a list is chained descending under the key. -/
def chainDesc {α : Type} (key : α → Nat) : List α → Bool
  | [] => true
  | [_] => true
  | a :: b :: t => decide (key b ≤ key a) && chainDesc key (b :: t)

def findCategory (db : DB) (cid : Option String) : Option IssueCategory :=
  match cid with
  | none => none
  | some c => db.issue_categories.find? fun k => k.id == c

def findDepartment (db : DB) (did : Option String) : Option Department :=
  match did with
  | none => none
  | some d => db.departments.find? fun k => k.id == d

def findProfile (db : DB) (uid : Option String) : Option Profile :=
  match uid with
  | none => none
  | some u => db.profiles.find? fun k => k.user_id == u

/-- The join written in the issues selects: category, department, assignee. -/
def joinIssue (db : DB) (r : IssueRow) : ClientIssue :=
  { row := r
    category := findCategory db r.category_id
    department := findDepartment db r.department_id
    assigned_user := findProfile db r.assigned_to }

/-- The updates visible through the row-level policy: is_public = true. -/
def publicUpdates (db : DB) (iid : Nat) : List IssueUpdate :=
  db.issue_updates.filter fun u => u.issue_id == iid && u.is_public

/-- The join written in the trackIssueByToken select. -/
def trackJoin (db : DB) (r : IssueRow) : TrackedIssue :=
  { row := r
    category := findCategory db r.category_id
    department := findDepartment db r.department_id
    updates := publicUpdates db r.id }

/-- Fields the createIssue callers may pass (the hook takes a part-defined
Issue; title, description and severity are dereferenced as required). -/
structure InsertInput where
  title : String
  description : String
  category_id : Option String
  department_id : Option String
  severity : Severity
  location : Option String
  reporter_id : Option String
  status : Option Status
  metadata : List (String × String)
  attachments : List String
deriving DecidableEq, Repr

/-- The row payload createIssue actually sends: exactly title, description,
category_id, department_id, severity, location, plus the fresh token. -/
structure InsertData where
  title : String
  description : String
  category_id : Option String
  department_id : Option String
  severity : Severity
  location : Option String
  anonymous_token : String
deriving DecidableEq, Repr

/-- insertData of createIssue in useIssues.ts. -/
def buildInsertData (input : InsertInput) (tok : String) : InsertData :=
  { title := input.title
    description := input.description
    category_id := input.category_id
    department_id := input.department_id
    severity := input.severity
    location := input.location
    anonymous_token := tok }

/-- The inserted issues row: database defaults supply status open, empty
attachments and metadata, now() timestamps, and a fresh primary key; columns
absent from the payload (reporter_id, assigned_to, resolved_at) are null. -/
def insertIssueRow (db : DB) (d : InsertData) : IssueRow :=
  { id := db.nextId
    title := d.title
    description := d.description
    category_id := d.category_id
    department_id := d.department_id
    severity := d.severity
    status := Status.open_
    anonymous_token := d.anonymous_token
    reporter_id := none
    assigned_to := none
    location := d.location
    attachments := []
    metadata := []
    created_at := db.now
    updated_at := db.now
    resolved_at := none }

/-- Whether a token already occurs as some issues row anonymous_token (the
unique constraint on that column). -/
def tokenUsed (db : DB) (tok : String) : Bool :=
  db.issues.any fun r => r.anonymous_token == tok

/-- fetchIssues: select all issues with joins, ordered by created_at
descending, replacing the whole in-memory list; on failure it logs, raises
one destructive toast and rethrows nothing. -/
def fetchIssues (remote : Remote) (db : DB) (st : HookState) : OpOut Unit :=
  match remote with
  | Remote.fail msg =>
      { db := db, state := st
        effects := { logged := true, toasts := [loadErrorToast msg], stored := [] }
        result := Except.ok () }
  | Remote.ok =>
      { db := db
        state := { st with issues := (sortDescBy IssueRow.created_at db.issues).map (joinIssue db) }
        effects := noEffects
        result := Except.ok () }

/-- fetchCategories: select ordered by name; the catch only logs, raising no
toast and rethrowing nothing. -/
def fetchCategories (remote : Remote) (db : DB) (st : HookState) : OpOut Unit :=
  match remote with
  | Remote.fail _ =>
      { db := db, state := st
        effects := { logged := true, toasts := [], stored := [] }
        result := Except.ok () }
  | Remote.ok =>
      { db := db
        state := { st with categories := sortAscBy IssueCategory.name db.issue_categories }
        effects := noEffects
        result := Except.ok () }

/-- fetchDepartments: select ordered by name; the catch only logs, raising no
toast and rethrowing nothing. -/
def fetchDepartments (remote : Remote) (db : DB) (st : HookState) : OpOut Unit :=
  match remote with
  | Remote.fail _ =>
      { db := db, state := st
        effects := { logged := true, toasts := [], stored := [] }
        result := Except.ok () }
  | Remote.ok =>
      { db := db
        state := { st with departments := sortAscBy Department.name db.departments }
        effects := noEffects
        result := Except.ok () }

def createdRow (db : DB) (input : InsertInput) (tok : String) : IssueRow :=
  insertIssueRow db (buildInsertData input tok)

/-- Database after a successful insert: the new row appended, the clock
advanced, the key counter advanced. -/
def createdDB (db : DB) (input : InsertInput) (tok : String) : DB :=
  { db with
    issues := db.issues ++ [createdRow db input tok]
    now := db.now + 1
    nextId := db.nextId + 1 }

/-- Success path of createIssue: insert with returning join, store the token
in client-local storage, prepend the transformed issue, toast, and return the
issue with its token. -/
def createIssueOk (db : DB) (st : HookState) (input : InsertInput) (tok : String) :
    OpOut (ClientIssue × String) :=
  let row := createdRow db input tok
  let db' := createdDB db input tok
  let ci := joinIssue db' row
  { db := db'
    state := { st with issues := ci :: st.issues }
    effects := { logged := false
                 toasts := [createdToast tok]
                 stored := [("issue_token_" ++ toString db.nextId, tok)] }
    result := Except.ok (ci, tok) }

/-- createIssue: request a fresh token (supplied here by the token oracle
argument, as the generate_anonymous_token rpc), insert the payload, and on
any failure log, toast and rethrow the error. -/
def createIssue (remote : Remote) (db : DB) (st : HookState) (input : InsertInput)
    (tok : String) : OpOut (ClientIssue × String) :=
  match remote with
  | Remote.fail msg =>
      { db := db, state := st
        effects := { logged := true, toasts := [reportErrorToast msg], stored := [] }
        result := Except.error msg }
  | Remote.ok =>
      if tokenUsed db tok then
        { db := db, state := st
          effects := { logged := true, toasts := [reportErrorToast uniqueMsg], stored := [] }
          result := Except.error uniqueMsg }
      else
        createIssueOk db st input tok

/-- A part-defined update payload: the fields the update path can carry.
Outer none means the field is absent from the patch; inner options model
nullable columns. -/
structure IssuePatch where
  title : Option String := none
  description : Option String := none
  category_id : Option (Option String) := none
  department_id : Option (Option String) := none
  severity : Option Severity := none
  status : Option Status := none
  assigned_to : Option (Option String) := none
  location : Option (Option String) := none
  resolved_at : Option (Option Nat) := none
  created_at : Option Nat := none
deriving DecidableEq, Repr

/-- Apply an update payload to a row, column by column. -/
def applyPatch (p : IssuePatch) (r : IssueRow) : IssueRow :=
  { r with
    title := p.title.getD r.title
    description := p.description.getD r.description
    category_id := p.category_id.getD r.category_id
    department_id := p.department_id.getD r.department_id
    severity := p.severity.getD r.severity
    status := p.status.getD r.status
    assigned_to := p.assigned_to.getD r.assigned_to
    location := p.location.getD r.location
    resolved_at := p.resolved_at.getD r.resolved_at
    created_at := p.created_at.getD r.created_at }

/-- updateIssue: update by primary key with returning join and single-row
check.  The authorized flag is the outcome of the Staff-can-update row
policy for the calling account; an unauthorized update touches zero rows, so
the single-row check fails.  The update trigger refreshes updated_at. -/
def updateIssue (remote : Remote) (authorized : Bool) (db : DB) (st : HookState)
    (issueId : Nat) (p : IssuePatch) : OpOut ClientIssue :=
  match remote with
  | Remote.fail msg =>
      { db := db, state := st
        effects := { logged := true, toasts := [updateErrorToast msg], stored := [] }
        result := Except.error msg }
  | Remote.ok =>
      match authorized with
      | true =>
        match db.issues.filter (fun r => r.id == issueId) with
        | [r] =>
            let r' := { applyPatch p r with updated_at := db.now }
            let db' := { db with
                         issues := db.issues.map fun x =>
                           if x.id == issueId then { applyPatch p x with updated_at := db.now } else x
                         now := db.now + 1 }
            let ci := joinIssue db' r'
            { db := db'
              state := { st with issues := st.issues.map fun i => if i.row.id == issueId then ci else i }
              effects := { logged := false, toasts := [updatedToast], stored := [] }
              result := Except.ok ci }
        | _ =>
            { db := db, state := st
              effects := { logged := true, toasts := [updateErrorToast noRowsMsg], stored := [] }
              result := Except.error noRowsMsg }
      | false =>
        { db := db, state := st
          effects := { logged := true, toasts := [updateErrorToast noRowsMsg], stored := [] }
          result := Except.error noRowsMsg }

/-- trackIssueByToken: exact-match select on anonymous_token with a
single-row check.  Zero or several matches make the single-row check fail;
the catch logs, raises the not-found toast and rethrows, on transport
failures just the same. -/
def trackIssueByToken (remote : Remote) (db : DB) (st : HookState) (token : String) :
    OpOut TrackedIssue :=
  match remote with
  | Remote.fail msg =>
      { db := db, state := st
        effects := { logged := true, toasts := [notFoundToast], stored := [] }
        result := Except.error msg }
  | Remote.ok =>
      match db.issues.filter (fun r => r.anonymous_token == token) with
      | [r] =>
          { db := db, state := st, effects := noEffects
            result := Except.ok (trackJoin db r) }
      | _ =>
          { db := db, state := st
            effects := { logged := true, toasts := [notFoundToast], stored := [] }
            result := Except.error noRowsMsg }

/-- Local state of the tracking page. -/
structure TrackPageState where
  loading : Bool
  trackedIssue : Option TrackedIssue
deriving DecidableEq, Repr

/-- handleTrack of pages/TrackIssue.tsx: await the hook lookup; a returned
issue is stored and announced; a thrown error is caught and announced; the
returned value of the hook is never null, so the not-found branch of the
page is unreachable. -/
def handleTrack (remote : Remote) (db : DB) (st : HookState) (page : TrackPageState)
    (token : String) : TrackPageState × List Toast :=
  let o := trackIssueByToken remote db st token
  match o.result with
  | Except.ok issue =>
      ({ loading := false, trackedIssue := some issue }, o.effects.toasts ++ [foundToast])
  | Except.error _ =>
      ({ loading := false, trackedIssue := page.trackedIssue }, o.effects.toasts ++ [trackErrorToast])

/-- Lower-cased character list of a string, for the case-insensitive search
of the dashboard. -/
def lowerChars (s : String) : List Char :=
  s.toList.map Char.toLower

/-- Whether the needle starts the haystack. -/
def leadsWith : List Char → List Char → Bool
  | [], _ => true
  | _ :: _, [] => false
  | a :: as, b :: bs => a == b && leadsWith as bs

/-- Whether the needle occurs anywhere in the haystack (string includes). -/
def appearsIn (needle : List Char) : List Char → Bool
  | [] => needle.isEmpty
  | b :: bs => leadsWith needle (b :: bs) || appearsIn needle bs

/-- Dashboard search predicate: case-insensitive includes on title or
description. -/
def matchesSearch (i : ClientIssue) (term : String) : Bool :=
  appearsIn (lowerChars term) (lowerChars i.row.title) ||
    appearsIn (lowerChars term) (lowerChars i.row.description)

/-- Dashboard status predicate: all, or equality with the status string. -/
def matchesStatus (i : ClientIssue) (f : String) : Bool :=
  f == "all" || Status.str i.row.status == f

/-- Dashboard severity predicate: all, or equality with the severity string. -/
def matchesSeverity (i : ClientIssue) (f : String) : Bool :=
  f == "all" || Severity.str i.row.severity == f

/-- filteredIssues of the dashboard. -/
def filteredIssues (l : List ClientIssue) (searchTerm statusFilter severityFilter : String) :
    List ClientIssue :=
  l.filter fun i => matchesSearch i searchTerm && matchesStatus i statusFilter &&
    matchesSeverity i severityFilter

/-- The dashboard count of issues with a given status. -/
def countWithStatus (l : List ClientIssue) (s : Status) : Nat :=
  (l.filter fun i => i.row.status == s).length

/-- zod schema of pages/ReportIssue.tsx after validation. -/
structure ReportFormData where
  title : String
  description : String
  category_id : String
  department_id : Option String
  severity : Severity
  location : Option String
  anonymous : Bool
deriving DecidableEq, Repr

/-- issueData built by handleSubmit of pages/ReportIssue.tsx: keeps the form
fields, sets reporter_id for identified submissions, status open, and a
metadata map with provenance and timestamp. -/
def reportIssueData (d : ReportFormData) (ts : String) (userId : Option String) : InsertInput :=
  { title := d.title
    description := d.description
    category_id := some d.category_id
    department_id := d.department_id
    severity := d.severity
    location := d.location
    reporter_id := if d.anonymous then none else userId
    status := some Status.open_
    metadata := [("submitted_via", "web_form"),
                 ("anonymous_submission", if d.anonymous then "true" else "false"),
                 ("timestamp", ts)]
    attachments := [] }

/-- The roles offered by the sign-up form of pages/Auth.tsx. -/
def signUpRoles : List String := ["employee", "manager", "hr"]

/-- Metadata supplied at sign-up (raw_user_meta_data). -/
structure SignUpMeta where
  role : Option String
  display_name : Option String
  first_name : Option String
  last_name : Option String
  company : Option String
  job_title : Option String
deriving DecidableEq, Repr

/-- split_part(email, at-sign, 1). -/
def emailLocalPart (e : String) : String :=
  (e.splitOn "@").headD ""

/-- handle_new_user trigger function: the profile row created for a fresh
account, with the role defaulting to employee. -/
def handle_new_user (userId email : String) (meta : SignUpMeta) : Profile :=
  { user_id := userId
    email := email
    role := meta.role.getD "employee"
    display_name := some (meta.display_name.getD (emailLocalPart email))
    first_name := meta.first_name
    last_name := meta.last_name
    company := meta.company
    job_title := meta.job_title }

/-- The privileged-role test of the row-level policies: role IN (staff,
faculty). -/
def privilegedRole (r : String) : Bool :=
  r == "staff" || r == "faculty"

/-- Policy Staff can update issues: some profile row of the calling account
has a privileged role. -/
def staffCanUpdateIssues (profiles : List Profile) (uid : String) : Bool :=
  profiles.any fun p => p.user_id == uid && privilegedRole p.role

/-- Policy Staff can create updates: the same condition. -/
def staffCanCreateUpdates (profiles : List Profile) (uid : String) : Bool :=
  profiles.any fun p => p.user_id == uid && privilegedRole p.role

/-- A role obtainable through the application: either absent at sign-up (the
trigger then defaults it) or one of the roles the sign-up form offers. -/
def roleObtainable (r : Option String) : Prop :=
  r = none ∨ ∃ s ∈ signUpRoles, r = some s

/-- Sort key of the client issue list. -/
def ciKey (i : ClientIssue) : Nat :=
  i.row.created_at

/- Concrete fixtures used by witnesses and counterexamples. -/

def cat0 : IssueCategory :=
  { id := "c1", name := "Maintenance", description := none, color := "#6366f1", icon := "AlertCircle" }

def dep0 : Department :=
  { id := "d1", name := "Facilities", description := none }

def db0 : DB :=
  { issues := [], issue_categories := [cat0], departments := [dep0], issue_updates := []
    anonymous_tokens := [], profiles := [], now := 10, nextId := 0 }

def st0 : HookState :=
  { issues := [], categories := [], departments := [] }

def page0 : TrackPageState :=
  { loading := false, trackedIssue := none }

def input0 : InsertInput :=
  { title := "Broken light in lobby"
    description := "The lobby light stays off."
    category_id := some "c1"
    department_id := some "d1"
    severity := Severity.low
    location := none
    reporter_id := none
    status := some Status.open_
    metadata := []
    attachments := [] }

def inputA : InsertInput :=
  { input0 with
    reporter_id := some "u1"
    status := some Status.resolved
    metadata := [("k", "v")]
    attachments := ["a.png"] }

def form0 : ReportFormData :=
  { title := "Broken light in lobby"
    description := "The lobby light stays off."
    category_id := "c1"
    department_id := none
    severity := Severity.low
    location := none
    anonymous := false }

def rowA : IssueRow :=
  { id := 0, title := "A", description := "a", category_id := none, department_id := none
    severity := Severity.low, status := Status.open_, anonymous_token := "ta"
    reporter_id := none, assigned_to := none, location := none
    attachments := [], metadata := [], created_at := 5, updated_at := 5, resolved_at := none }

def rowB : IssueRow :=
  { id := 1, title := "B", description := "b", category_id := none, department_id := none
    severity := Severity.medium, status := Status.open_, anonymous_token := "tb"
    reporter_id := none, assigned_to := none, location := none
    attachments := [], metadata := [], created_at := 3, updated_at := 3, resolved_at := none }

def db1 : DB :=
  { issues := [rowA, rowB], issue_categories := [cat0], departments := [dep0]
    issue_updates := [], anonymous_tokens := [], profiles := [], now := 10, nextId := 2 }

def st1 : HookState :=
  { issues := [joinIssue db1 rowA, joinIssue db1 rowB], categories := [], departments := [] }

/-- A patch that rewrites created_at, as the update path admits. -/
def patchCreatedAt : IssuePatch :=
  { created_at := some 0 }

/-- A patch that only moves the status forward. -/
def patchStatus : IssuePatch :=
  { status := some Status.in_progress }

def meta1 : SignUpMeta :=
  { role := some "hr", display_name := some "A B", first_name := some "A"
    last_name := some "B", company := some "ACME", job_title := some "Dev" }

def profiles1 : List Profile :=
  [handle_new_user "u1" "a@b.c" meta1]

/- Helper lemmas. -/

theorem filter_eq_nil_of_any_false {α : Type} (p : α → Bool) :
    ∀ l : List α, l.any p = false → l.filter p = [] := by
  intro l
  induction l with
  | nil => intro _; rfl
  | cons x xs ih =>
    intro h
    rw [List.any_cons, Bool.or_eq_false_iff] at h
    rw [List.filter_cons, h.1]
    exact ih h.2

theorem chainDesc_cons_le {α : Type} (key : α → Nat) (a : α) (l : List α)
    (hl : chainDesc key l = true) (hall : ∀ x ∈ l, key x ≤ key a) :
    chainDesc key (a :: l) = true := by
  cases l with
  | nil => rfl
  | cons x xs =>
    have hx : key x ≤ key a := hall x (List.mem_cons_self x xs)
    simp only [chainDesc, Bool.and_eq_true, decide_eq_true_eq]
    exact ⟨hx, hl⟩

theorem chainDesc_insertDescBy {α : Type} (key : α → Nat) (a : α) :
    ∀ l : List α, chainDesc key l = true → chainDesc key (insertDescBy key a l) = true := by
  intro l
  induction l with
  | nil => intro _; rfl
  | cons x xs ih =>
    intro h
    by_cases hxa : key x ≤ key a
    · simp only [insertDescBy, if_pos hxa, chainDesc, Bool.and_eq_true, decide_eq_true_eq]
      exact ⟨hxa, h⟩
    · have hax : key a ≤ key x := Nat.le_of_lt (Nat.lt_of_not_le hxa)
      cases xs with
      | nil =>
        simp only [insertDescBy, if_neg hxa, chainDesc, Bool.and_eq_true, decide_eq_true_eq]
        exact ⟨hax, trivial⟩
      | cons y ys =>
        simp only [chainDesc, Bool.and_eq_true, decide_eq_true_eq] at h
        obtain ⟨hyx, hchain⟩ := h
        have hrec : chainDesc key (insertDescBy key a (y :: ys)) = true := ih hchain
        by_cases hya : key y ≤ key a
        · rw [insertDescBy, if_neg hxa, insertDescBy, if_pos hya]
          simp only [chainDesc, Bool.and_eq_true, decide_eq_true_eq]
          exact ⟨hax, hya, hchain⟩
        · rw [insertDescBy, if_neg hxa, insertDescBy, if_neg hya]
          rw [insertDescBy, if_neg hya] at hrec
          simp only [chainDesc, Bool.and_eq_true, decide_eq_true_eq]
          refine ⟨hyx, ?_⟩
          cases hys : insertDescBy key a ys with
          | nil => rfl
          | cons z zs =>
            rw [hys] at hrec
            exact hrec

theorem chainDesc_sortDescBy {α : Type} (key : α → Nat) :
    ∀ l : List α, chainDesc key (sortDescBy key l) = true := by
  intro l
  induction l with
  | nil => rfl
  | cons x xs ih =>
    simpa [sortDescBy] using chainDesc_insertDescBy key x (sortDescBy key xs) ih

theorem chainDesc_map {α β : Type} (keyB : β → Nat) (f : α → β) (keyA : α → Nat) :
    ∀ l : List α, (∀ a ∈ l, keyB (f a) = keyA a) →
      chainDesc keyB (l.map f) = chainDesc keyA l := by
  intro l
  induction l with
  | nil => intro _; rfl
  | cons x xs ih =>
    intro h
    cases xs with
    | nil => rfl
    | cons y ys =>
      have hx : keyB (f x) = keyA x := h x (List.mem_cons_self x (y :: ys))
      have hy : keyB (f y) = keyA y :=
        h y (List.mem_cons_of_mem x (List.mem_cons_self y ys))
      have ht : ∀ a ∈ y :: ys, keyB (f a) = keyA a :=
        fun a ha => h a (List.mem_cons_of_mem x ha)
      have ih2 := ih ht
      rw [List.map_cons] at ih2
      simp only [List.map_cons, chainDesc, hx, hy, ih2]

theorem createIssue_fresh (db : DB) (st : HookState) (input : InsertInput) (tok : String)
    (h : tokenUsed db tok = false) :
    createIssue Remote.ok db st input tok = createIssueOk db st input tok := by
  simp [createIssue, h]

theorem createdDB_filter (db : DB) (input : InsertInput) (tok : String)
    (h : tokenUsed db tok = false) :
    (createdDB db input tok).issues.filter (fun r => r.anonymous_token == tok) =
      [createdRow db input tok] := by
  have hnil : db.issues.filter (fun r => r.anonymous_token == tok) = [] :=
    filter_eq_nil_of_any_false _ db.issues h
  simp [createdDB, List.filter_append, hnil, createdRow, insertIssueRow, buildInsertData]

theorem track_single (db : DB) (st : HookState) (tok : String) (r : IssueRow)
    (hf : db.issues.filter (fun x => x.anonymous_token == tok) = [r]) :
    trackIssueByToken Remote.ok db st tok =
      { db := db, state := st, effects := noEffects
        result := Except.ok (trackJoin db r) } := by
  simp [trackIssueByToken, hf]

theorem track_none (db : DB) (st : HookState) (tok : String)
    (hf : db.issues.filter (fun x => x.anonymous_token == tok) = []) :
    trackIssueByToken Remote.ok db st tok =
      { db := db, state := st
        effects := { logged := true, toasts := [notFoundToast], stored := [] }
        result := Except.error noRowsMsg } := by
  simp [trackIssueByToken, hf]

theorem appearsIn_nil : ∀ cs : List Char, appearsIn [] cs = true := by
  intro cs
  cases cs with
  | nil => rfl
  | cons b bs => simp [appearsIn, leadsWith]

theorem matchesSearch_empty (i : ClientIssue) : matchesSearch i "" = true := by
  have h : lowerChars "" = [] := rfl
  simp [matchesSearch, h, appearsIn_nil]

theorem matchesSeverity_all (i : ClientIssue) : matchesSeverity i "all" = true := by
  simp [matchesSeverity]

theorem status_str_ne_all (X : Status) : (Status.str X == "all") = false := by
  cases X <;> rfl

theorem status_str_beq (s X : Status) :
    (Status.str s == Status.str X) = (s == X) := by
  cases s <;> cases X <;> rfl

theorem matchesStatus_str (i : ClientIssue) (X : Status) :
    matchesStatus i (Status.str X) = (i.row.status == X) := by
  simp only [matchesStatus, status_str_ne_all, status_str_beq, Bool.false_or]

theorem anyStaff_false_of (u : String) :
    ∀ l : List Profile, (∀ p ∈ l, privilegedRole p.role = false) →
      (l.any fun p => p.user_id == u && privilegedRole p.role) = false := by
  intro l
  induction l with
  | nil => intro _; rfl
  | cons p ps ih =>
    intro h
    have h1 : privilegedRole p.role = false := h p (List.mem_cons_self p ps)
    have h2 := ih fun q hq => h q (List.mem_cons_of_mem p hq)
    simp [List.any_cons, h1, h2]

/- Claim C1. -/

/-- Claim C1, counterexample: with a never-issued token, trackIssueByToken
does not return a null-equivalent not-found value: its result is a thrown
error, and the notifications it raises are exactly the ones a transport-level
failure raises, so the not-found case is not distinct from a transport
failure. -/
theorem claim1_cex_track_throws_on_unknown_token :
    exceptOk (trackIssueByToken Remote.ok db0 st0 "never-issued").result = false ∧
    (trackIssueByToken Remote.ok db0 st0 "never-issued").effects.toasts =
      (trackIssueByToken (Remote.fail "network down") db0 st0 "never-issued").effects.toasts :=
  ⟨rfl, rfl⟩

/-- Claim C1 amended: for every token matching no issue, trackIssueByToken
raises the not-found notification, logs, and rethrows the error instead of
returning a not-found value; the page handler handleTrack catches the thrown
error, leaves the tracked issue unchanged and raises its own error
notification, so no error escapes the page. -/
theorem claim1_track_unknown_token_throws_caught (db : DB) (st : HookState)
    (page : TrackPageState) (tok : String) (h : tokenUsed db tok = false) :
    exceptOk (trackIssueByToken Remote.ok db st tok).result = false ∧
    (trackIssueByToken Remote.ok db st tok).effects.toasts = [notFoundToast] ∧
    (trackIssueByToken Remote.ok db st tok).effects.logged = true ∧
    (handleTrack Remote.ok db st page tok).1.trackedIssue = page.trackedIssue ∧
    (handleTrack Remote.ok db st page tok).2 = [notFoundToast, trackErrorToast] := by
  have hf : db.issues.filter (fun x => x.anonymous_token == tok) = [] :=
    filter_eq_nil_of_any_false _ db.issues h
  rw [handleTrack, track_none db st tok hf]
  exact ⟨rfl, rfl, rfl, rfl, rfl⟩

/-- Claim C1 witness. -/
theorem claim1_witness :
    tokenUsed db0 "nope" = false ∧
    (exceptOk (trackIssueByToken Remote.ok db0 st0 "nope").result = false ∧
      (trackIssueByToken Remote.ok db0 st0 "nope").effects.toasts = [notFoundToast] ∧
      (trackIssueByToken Remote.ok db0 st0 "nope").effects.logged = true ∧
      (handleTrack Remote.ok db0 st0 page0 "nope").1.trackedIssue = page0.trackedIssue ∧
      (handleTrack Remote.ok db0 st0 page0 "nope").2 = [notFoundToast, trackErrorToast]) :=
  ⟨rfl, claim1_track_unknown_token_throws_caught db0 st0 page0 "nope" rfl⟩

/- Claim C2. -/

/-- Claim C2: with a fresh token, createIssue succeeds and an immediate
trackIssueByToken with the returned token finds an issue whose title,
description, severity and category reference equal the input exactly. -/
theorem claim2_create_track_roundtrip (db : DB) (st st2 : HookState)
    (input : InsertInput) (tok : String) (h : tokenUsed db tok = false) :
    ∃ ci ti,
      (createIssue Remote.ok db st input tok).result = Except.ok (ci, tok) ∧
      (trackIssueByToken Remote.ok (createIssue Remote.ok db st input tok).db st2 tok).result =
        Except.ok ti ∧
      ti.row.title = input.title ∧
      ti.row.description = input.description ∧
      ti.row.severity = input.severity ∧
      ti.row.category_id = input.category_id := by
  rw [createIssue_fresh db st input tok h]
  have hdb : (createIssueOk db st input tok).db = createdDB db input tok := rfl
  rw [hdb, track_single (createdDB db input tok) st2 tok (createdRow db input tok)
    (createdDB_filter db input tok h)]
  exact ⟨_, _, rfl, rfl, rfl, rfl, rfl, rfl⟩

/-- Claim C2 witness. -/
theorem claim2_witness :
    tokenUsed db0 "tk1" = false ∧
    (∃ ci ti,
      (createIssue Remote.ok db0 st0 input0 "tk1").result = Except.ok (ci, "tk1") ∧
      (trackIssueByToken Remote.ok (createIssue Remote.ok db0 st0 input0 "tk1").db st0 "tk1").result =
        Except.ok ti ∧
      ti.row.title = input0.title ∧
      ti.row.description = input0.description ∧
      ti.row.severity = input0.severity ∧
      ti.row.category_id = input0.category_id) :=
  ⟨rfl, claim2_create_track_roundtrip db0 st0 st0 input0 "tk1" rfl⟩

/- Claim C3. -/

/-- Claim C3, counterexample: createIssue succeeds but inserts no row into
the anonymous_tokens table, which stays empty, so the table does not contain
a row whose token equals the returned token. -/
theorem claim3_cex_no_tokens_table_row :
    exceptOk (createIssue Remote.ok db0 st0 input0 "tok123").result = true ∧
    (createIssue Remote.ok db0 st0 input0 "tok123").db.anonymous_tokens = [] :=
  ⟨rfl, rfl⟩

/-- Claim C3 amended: after a successful createIssue the generated token is
stored only as the issue rows anonymous_token field and in client-local
storage; the anonymous_tokens table is left exactly as it was. -/
theorem claim3_token_on_issue_row_only (db : DB) (st : HookState)
    (input : InsertInput) (tok : String) (h : tokenUsed db tok = false) :
    (createIssue Remote.ok db st input tok).db.anonymous_tokens = db.anonymous_tokens ∧
    ∃ ci,
      (createIssue Remote.ok db st input tok).result = Except.ok (ci, tok) ∧
      ci.row.anonymous_token = tok ∧
      (createIssue Remote.ok db st input tok).effects.stored =
        [("issue_token_" ++ toString db.nextId, tok)] := by
  rw [createIssue_fresh db st input tok h]
  exact ⟨rfl, _, rfl, rfl, rfl⟩

/-- Claim C3 witness. -/
theorem claim3_witness :
    tokenUsed db0 "tk2" = false ∧
    ((createIssue Remote.ok db0 st0 input0 "tk2").db.anonymous_tokens = db0.anonymous_tokens ∧
      ∃ ci,
        (createIssue Remote.ok db0 st0 input0 "tk2").result = Except.ok (ci, "tk2") ∧
        ci.row.anonymous_token = "tk2" ∧
        (createIssue Remote.ok db0 st0 input0 "tk2").effects.stored =
          [("issue_token_" ++ toString db0.nextId, "tk2")]) :=
  ⟨rfl, claim3_token_on_issue_row_only db0 st0 input0 "tk2" rfl⟩

/- Claim C7. -/

/-- Claim C7: an issue created with no reporter in the input is retrievable
by its token, and the reporter identity field of the result is absent. -/
theorem claim7_anonymous_roundtrip (db : DB) (st st2 : HookState)
    (input : InsertInput) (tok : String) (h : tokenUsed db tok = false)
    (_hanon : input.reporter_id = none) :
    ∃ ti,
      (trackIssueByToken Remote.ok (createIssue Remote.ok db st input tok).db st2 tok).result =
        Except.ok ti ∧
      ti.row.reporter_id = none := by
  rw [createIssue_fresh db st input tok h]
  have hdb : (createIssueOk db st input tok).db = createdDB db input tok := rfl
  rw [hdb, track_single (createdDB db input tok) st2 tok (createdRow db input tok)
    (createdDB_filter db input tok h)]
  exact ⟨_, rfl, rfl⟩

/-- Claim C7 witness. -/
theorem claim7_witness :
    tokenUsed db0 "tk3" = false ∧ input0.reporter_id = none ∧
    (∃ ti,
      (trackIssueByToken Remote.ok (createIssue Remote.ok db0 st0 input0 "tk3").db st0 "tk3").result =
        Except.ok ti ∧
      ti.row.reporter_id = none) :=
  ⟨rfl, rfl, claim7_anonymous_roundtrip db0 st0 st0 input0 "tk3" rfl rfl⟩

/- Claim C4. -/

/-- Claim C4, counterexample: a remote failure of fetchCategories is caught
and logged but converted into no user-visible notification at all, so not
every remote-operation failure reaches the single notification pattern. -/
theorem claim4_cex_fetchCategories_silent :
    (fetchCategories (Remote.fail "network down") db0 st0).effects.logged = true ∧
    (fetchCategories (Remote.fail "network down") db0 st0).effects.toasts = [] :=
  ⟨rfl, rfl⟩

/-- Claim C4 amended: every remote-operation failure is caught at the hook
boundary and logged; fetchIssues, createIssue, updateIssue and
trackIssueByToken each raise exactly one destructive notification, while
fetchCategories and fetchDepartments raise none; the three fetch operations
swallow the error, while createIssue, updateIssue and trackIssueByToken
rethrow the raw error to their caller. -/
theorem claim4_failure_handling_per_op (msg : String) (db : DB) (st : HookState)
    (input : InsertInput) (tok : String) (issueId : Nat) (p : IssuePatch) (auth : Bool) :
    ((fetchIssues (Remote.fail msg) db st).result = Except.ok () ∧
      (fetchIssues (Remote.fail msg) db st).effects.logged = true ∧
      (fetchIssues (Remote.fail msg) db st).effects.toasts = [loadErrorToast msg]) ∧
    ((fetchCategories (Remote.fail msg) db st).result = Except.ok () ∧
      (fetchCategories (Remote.fail msg) db st).effects.logged = true ∧
      (fetchCategories (Remote.fail msg) db st).effects.toasts = []) ∧
    ((fetchDepartments (Remote.fail msg) db st).result = Except.ok () ∧
      (fetchDepartments (Remote.fail msg) db st).effects.logged = true ∧
      (fetchDepartments (Remote.fail msg) db st).effects.toasts = []) ∧
    ((createIssue (Remote.fail msg) db st input tok).result = Except.error msg ∧
      (createIssue (Remote.fail msg) db st input tok).effects.logged = true ∧
      (createIssue (Remote.fail msg) db st input tok).effects.toasts = [reportErrorToast msg]) ∧
    ((updateIssue (Remote.fail msg) auth db st issueId p).result = Except.error msg ∧
      (updateIssue (Remote.fail msg) auth db st issueId p).effects.logged = true ∧
      (updateIssue (Remote.fail msg) auth db st issueId p).effects.toasts =
        [updateErrorToast msg]) ∧
    ((trackIssueByToken (Remote.fail msg) db st tok).result = Except.error msg ∧
      (trackIssueByToken (Remote.fail msg) db st tok).effects.logged = true ∧
      (trackIssueByToken (Remote.fail msg) db st tok).effects.toasts = [notFoundToast]) :=
  ⟨⟨rfl, rfl, rfl⟩, ⟨rfl, rfl, rfl⟩, ⟨rfl, rfl, rfl⟩, ⟨rfl, rfl, rfl⟩,
    ⟨rfl, rfl, rfl⟩, ⟨rfl, rfl, rfl⟩⟩

/- Claim C5. -/

/-- Claim C5: a failing fetchIssues raises one destructive notification and
leaves the hook state exactly as it was; only a successful fetch replaces
the in-memory list, with the full ordered joined select result. -/
theorem claim5_fetch_failure_preserves_state :
    (∀ (msg : String) (db : DB) (st : HookState),
      (fetchIssues (Remote.fail msg) db st).state = st ∧
      (fetchIssues (Remote.fail msg) db st).effects.toasts = [loadErrorToast msg] ∧
      (fetchIssues (Remote.fail msg) db st).effects.logged = true) ∧
    (∀ (db : DB) (st : HookState),
      (fetchIssues Remote.ok db st).state.issues =
        (sortDescBy IssueRow.created_at db.issues).map (joinIssue db)) :=
  ⟨fun _ _ _ => ⟨rfl, rfl, rfl⟩, fun _ _ => rfl⟩

/- Claim C6. -/

/-- Claim C6: with the other dashboard filters at their defaults, filtering
by a status returns exactly the issues whose status equals it, and the four
status counts partition the list: they sum to the total count. -/
theorem claim6_status_filter_partition :
    (∀ (l : List ClientIssue) (X : Status),
      filteredIssues l "" (Status.str X) "all" = l.filter fun i => i.row.status == X) ∧
    (∀ l : List ClientIssue,
      countWithStatus l Status.open_ + countWithStatus l Status.in_progress +
        countWithStatus l Status.resolved + countWithStatus l Status.closed = l.length) := by
  constructor
  · intro l X
    unfold filteredIssues
    apply List.filter_congr
    intro i _
    rw [matchesSearch_empty, matchesSeverity_all, matchesStatus_str]
    simp
  · intro l
    induction l with
    | nil => rfl
    | cons a t ih =>
      unfold countWithStatus at *
      cases ha : a.row.status <;>
        simp [List.filter_cons, ha] <;> omega

/- Claim C8. -/

/-- Claim C8, counterexample: the claim does not hold of every hook
operation; updateIssue passes its part-defined payload through, so an update
that rewrites created_at succeeds, replaces the element in place, and leaves
the in-memory list no longer sorted newest first. -/
theorem claim8_cex_update_created_at_breaks_order :
    chainDesc ciKey st1.issues = true ∧
    exceptOk (updateIssue Remote.ok true db1 st1 0 patchCreatedAt).result = true ∧
    chainDesc ciKey ((updateIssue Remote.ok true db1 st1 0 patchCreatedAt).state.issues) = false :=
  ⟨rfl, rfl, rfl⟩

/-- Claim C8 amended: the hook operations preserve the newest-first order of
the in-memory list as long as update payloads do not touch created_at: a
successful fetchIssues always produces a list sorted descending by
created_at; createIssue prepends the fresh issue, which preserves sortedness
whenever the database clock is at or beyond every listed creation time; and
updateIssue with a payload not carrying created_at preserves sortedness
whenever the cached list agrees with the stored rows on creation times. -/
theorem claim8_order_invariant :
    (∀ (db : DB) (st : HookState),
      chainDesc ciKey ((fetchIssues Remote.ok db st).state.issues) = true) ∧
    (∀ (db : DB) (st : HookState) (input : InsertInput) (tok : String),
      tokenUsed db tok = false →
      chainDesc ciKey st.issues = true →
      (∀ i ∈ st.issues, i.row.created_at ≤ db.now) →
      chainDesc ciKey ((createIssue Remote.ok db st input tok).state.issues) = true) ∧
    (∀ (db : DB) (st : HookState) (issueId : Nat) (p : IssuePatch),
      p.created_at = none →
      chainDesc ciKey st.issues = true →
      (∀ i ∈ st.issues, ∀ r ∈ db.issues, i.row.id = r.id → i.row.created_at = r.created_at) →
      chainDesc ciKey ((updateIssue Remote.ok true db st issueId p).state.issues) = true) := by
  refine ⟨?_, ?_, ?_⟩
  · intro db st
    show chainDesc ciKey ((sortDescBy IssueRow.created_at db.issues).map (joinIssue db)) = true
    rw [chainDesc_map ciKey (joinIssue db) IssueRow.created_at _ fun a _ => rfl]
    exact chainDesc_sortDescBy IssueRow.created_at db.issues
  · intro db st input tok hfresh hchain hbound
    rw [createIssue_fresh db st input tok hfresh]
    show chainDesc ciKey (joinIssue (createdDB db input tok) (createdRow db input tok) :: st.issues) = true
    exact chainDesc_cons_le ciKey _ st.issues hchain fun x hx => hbound x hx
  · intro db st issueId p hp hchain hcoh
    unfold updateIssue
    cases hm : db.issues.filter (fun r => r.id == issueId) with
    | nil => simpa using hchain
    | cons r rest =>
      cases rest with
      | cons r2 rest2 => simpa using hchain
      | nil =>
        have hrmem : r ∈ db.issues.filter (fun x => x.id == issueId) := by
          rw [hm]; exact List.mem_singleton_self r
        have hr := List.mem_filter.mp hrmem
        have hrid : r.id = issueId := by
          have := hr.2
          simpa using this
        dsimp only
        rw [chainDesc_map ciKey _ ciKey st.issues ?_]
        · exact hchain
        · intro i hi
          by_cases hid : (i.row.id == issueId) = true
          · have hieq : i.row.id = issueId := by simpa using hid
            have hcreated : i.row.created_at = r.created_at :=
              hcoh i hi r hr.1 (by rw [hieq, hrid])
            simp [hid, ciKey, applyPatch, hp, hcreated, joinIssue]
          · simp [ciKey, hid]

/-- Claim C8 witness. -/
theorem claim8_witness :
    chainDesc ciKey ((fetchIssues Remote.ok db1 st1).state.issues) = true ∧
    tokenUsed db1 "fresh" = false ∧
    chainDesc ciKey ((createIssue Remote.ok db1 st1 input0 "fresh").state.issues) = true ∧
    patchStatus.created_at = none ∧
    chainDesc ciKey ((updateIssue Remote.ok true db1 st1 0 patchStatus).state.issues) = true :=
  ⟨claim8_order_invariant.1 db1 st1, rfl,
    claim8_order_invariant.2.1 db1 st1 input0 "fresh" rfl rfl (by decide), rfl,
    claim8_order_invariant.2.2 db1 st1 0 patchStatus rfl rfl (by decide)⟩

/- Claim C9. -/

/-- Claim C9: the payload createIssue sends depends only on title,
description, category_id, department_id, severity and location (plus the
fresh token); two inputs agreeing on those six produce identical payloads
whatever their reporter_id, status, metadata or attachments; and for an
identified report-form submission, which sets reporter_id, the inserted row
still carries no reporter identity, the default open status and empty
metadata. -/
theorem claim9_insert_depends_only_on_six_fields :
    (∀ (i1 i2 : InsertInput) (tok : String),
      i1.title = i2.title → i1.description = i2.description →
      i1.category_id = i2.category_id → i1.department_id = i2.department_id →
      i1.severity = i2.severity → i1.location = i2.location →
      buildInsertData i1 tok = buildInsertData i2 tok) ∧
    (∀ (db : DB) (d : ReportFormData) (ts uid tok : String),
      d.anonymous = false →
      (reportIssueData d ts (some uid)).reporter_id = some uid ∧
      (insertIssueRow db (buildInsertData (reportIssueData d ts (some uid)) tok)).reporter_id =
        none ∧
      (insertIssueRow db (buildInsertData (reportIssueData d ts (some uid)) tok)).status =
        Status.open_ ∧
      (insertIssueRow db (buildInsertData (reportIssueData d ts (some uid)) tok)).metadata =
        []) := by
  constructor
  · intro i1 i2 tok h1 h2 h3 h4 h5 h6
    simp [buildInsertData, h1, h2, h3, h4, h5, h6]
  · intro db d ts uid tok ha
    refine ⟨?_, rfl, rfl, rfl⟩
    simp [reportIssueData, ha]

/-- Claim C9 witness. -/
theorem claim9_witness :
    buildInsertData input0 "t0" = buildInsertData inputA "t0" ∧
    ((reportIssueData form0 "2026-10-11" (some "u1")).reporter_id = some "u1" ∧
      (insertIssueRow db0
        (buildInsertData (reportIssueData form0 "2026-10-11" (some "u1")) "t0")).reporter_id =
        none ∧
      (insertIssueRow db0
        (buildInsertData (reportIssueData form0 "2026-10-11" (some "u1")) "t0")).status =
        Status.open_ ∧
      (insertIssueRow db0
        (buildInsertData (reportIssueData form0 "2026-10-11" (some "u1")) "t0")).metadata =
        []) :=
  ⟨claim9_insert_depends_only_on_six_fields.1 input0 inputA "t0" rfl rfl rfl rfl rfl rfl,
    claim9_insert_depends_only_on_six_fields.2 db0 form0 "2026-10-11" "u1" "t0" rfl⟩

/- Claim C10. -/

/-- Claim C10: every role obtainable through the application (the sign-up
form offers employee, manager and hr, and the profile trigger defaults an
absent role to employee) fails the privileged-role test of the row-level
policies, so no account created through the sign-up flow satisfies the
Staff-can-update-issues or Staff-can-create-updates policy. -/
theorem claim10_signup_roles_never_privileged :
    (∀ (uid email : String) (meta : SignUpMeta), roleObtainable meta.role →
      privilegedRole ((handle_new_user uid email meta).role) = false) ∧
    (∀ profiles : List Profile,
      (∀ p ∈ profiles, ∃ uid email meta,
        roleObtainable meta.role ∧ p = handle_new_user uid email meta) →
      ∀ u, staffCanUpdateIssues profiles u = false ∧
        staffCanCreateUpdates profiles u = false) := by
  have key : ∀ (uid email : String) (meta : SignUpMeta), roleObtainable meta.role →
      privilegedRole ((handle_new_user uid email meta).role) = false := by
    intro uid email meta hro
    rcases hro with hn | ⟨s, hs, he⟩
    · have hrole : (handle_new_user uid email meta).role = "employee" := by
        simp [handle_new_user, hn]
      rw [hrole]
      rfl
    · have hrole : (handle_new_user uid email meta).role = s := by
        simp [handle_new_user, he]
      rw [hrole]
      simp only [signUpRoles, List.mem_cons, List.not_mem_nil, or_false] at hs
      rcases hs with rfl | rfl | rfl <;> rfl
  refine ⟨key, ?_⟩
  intro profiles hp u
  have hall : ∀ p ∈ profiles, privilegedRole p.role = false := by
    intro p hpmem
    obtain ⟨uid, email, meta, hro, rfl⟩ := hp p hpmem
    exact key uid email meta hro
  exact ⟨anyStaff_false_of u profiles hall, anyStaff_false_of u profiles hall⟩

/-- Claim C10 witness. -/
theorem claim10_witness :
    privilegedRole ((handle_new_user "u1" "a@b.c" meta1).role) = false ∧
    staffCanUpdateIssues profiles1 "u1" = false ∧
    staffCanCreateUpdates profiles1 "u1" = false := by
  have hro : roleObtainable meta1.role :=
    Or.inr ⟨"hr", by simp [signUpRoles], rfl⟩
  have h1 := claim10_signup_roles_never_privileged.1 "u1" "a@b.c" meta1 hro
  have h2 := claim10_signup_roles_never_privileged.2 profiles1 ?_ "u1"
  · exact ⟨h1, h2.1, h2.2⟩
  · intro p hp
    simp only [profiles1, List.mem_singleton] at hp
    exact ⟨"u1", "a@b.c", meta1, hro, hp⟩

end Candor
